import Mathlib

/-
Verification development for the Tessera scheduling subsystem.

The definitions below are a shallow embedding of src/backend/main.py,
src/backend/database.py and src/backend/scheduler.py.  SQL rows become
Lean structures, tables become lists of rows, timestamps become Nat,
and decimal token amounts become Int counts of hundredths of a token
(the spec fixes two fractional digits, so Python Decimal values are
exactly integer hundredths: Decimal 1.0 is 100, Decimal 0.5 is 50).
Each definition cites the source function it embeds.
-/

/-- Job status values used by the backend (CREATED, QUEUED, RUNNING,
COMPLETED, FAILED, CANCELLED). -/
inductive JobStatus where
  | CREATED
  | QUEUED
  | RUNNING
  | COMPLETED
  | FAILED
  | CANCELLED
deriving DecidableEq, Repr

/-- Structured error recorded on a failed job: fields code and message. -/
structure JobError where
  code : String
  message : String
deriving DecidableEq, Repr

/-- Row of the jobs table (src/backend/database.py, INSERT in create_job
and the columns touched by update_job and the scheduler). -/
structure Job where
  id : Nat
  user_id : Nat
  capability : String
  status : JobStatus
  priority : Int
  cost_tokens : Int
  created_at : Nat
  queued_at : Option Nat := none
  started_at : Option Nat := none
  ended_at : Option Nat := none
  worker_id : Option String := none
  execution_time_seconds : Option Int := none
  error : Option JobError := none
  metadata : Option (List Nat) := none
deriving DecidableEq, Repr

/-- Keyword arguments accepted by AsyncDatabase.update_job: each field is
none when the corresponding column is absent from kwargs, and some v when
kwargs sets it to v.  The Python callers never pass NULL values. -/
structure JobUpdate where
  status : Option JobStatus := none
  queued_at : Option Nat := none
  started_at : Option Nat := none
  ended_at : Option Nat := none
  worker_id : Option String := none
  execution_time_seconds : Option Int := none
  error : Option JobError := none
  metadata : Option (List Nat) := none
deriving DecidableEq

/-- Apply one optional kwargs entry to a mandatory column. -/
def setField {α : Type} (new : Option α) (old : α) : α :=
  new.getD old

/-- Apply one optional kwargs entry to a nullable column. -/
def setOpt {α : Type} (new : Option α) (old : Option α) : Option α :=
  match new with
  | some v => some v
  | none => old

/-- Effect of the SET clause built by AsyncDatabase.update_job on a single
row: every column present in kwargs is overwritten, the rest are kept. -/
def applyUpdate (j : Job) (u : JobUpdate) : Job :=
  { j with
    status := setField u.status j.status
    queued_at := setOpt u.queued_at j.queued_at
    started_at := setOpt u.started_at j.started_at
    ended_at := setOpt u.ended_at j.ended_at
    worker_id := setOpt u.worker_id j.worker_id
    execution_time_seconds := setOpt u.execution_time_seconds j.execution_time_seconds
    error := setOpt u.error j.error
    metadata := setOpt u.metadata j.metadata }

/-- Embeds AsyncDatabase.update_job (src/backend/database.py lines 76-88):
runs UPDATE jobs SET kwargs WHERE id = job_id.  The statement is
unconditional: there is no from_status check and no returned row count. -/
def update_job (jobs : List Job) (job_id : Nat) (u : JobUpdate) : List Job :=
  jobs.map (fun j => if j.id = job_id then applyUpdate j u else j)

/-- Request params blob; the backend only ever reads the capability key
(params.get in calculate_token_cost), so an association list suffices. -/
def Params : Type := List (String × String)

/-- Embeds Python dict.get on the params blob. -/
def paramsGet (p : Params) (key : String) : Option String :=
  (p.find? (fun e => e.1 == key)).map (fun e => e.2)

/-- Embeds calculate_token_cost (src/backend/main.py lines 37-42):
capability image costs Decimal 1.0 (100 hundredths), every other
capability (or a missing one) costs Decimal 0.5 (50 hundredths). -/
def calculate_token_cost (params : Params) : Int :=
  if paramsGet params "capability" = some "image" then 100 else 50

/-- Input dict passed to AsyncDatabase.create_artifact by the scheduler. -/
structure ArtifactInput where
  job_id : Nat
  type : String
  path : Option String
  url : Option String
deriving DecidableEq, Repr

/-- Row of the artifacts table as inserted by create_artifact. -/
structure ArtifactRow where
  id : Nat
  job_id : Nat
  type : String
  local_path : Option String
  public_url : Option String
  format : String
deriving DecidableEq, Repr

/-- Embeds AsyncDatabase.create_artifact (src/backend/database.py lines
123-135): INSERT INTO artifacts (job_id, type, local_path, public_url,
metadata, format) VALUES ($1, $2, $3, $4, $5, 'png'); the format column is
the literal 'png' in the SQL text and never comes from the input. -/
def create_artifact (nextId : Nat) (d : ArtifactInput) : ArtifactRow :=
  { id := nextId
    job_id := d.job_id
    type := d.type
    local_path := d.path
    public_url := d.url
    format := "png" }

/-- In-memory worker record built by WorkerProxy.init in
src/backend/scheduler.py lines 7-14. -/
structure WorkerProxy where
  id : String
  base_url : String
  capabilities : List String
  status : String
  loaded_models : List String
  last_heartbeat : Nat
deriving DecidableEq, Repr

/-- Embeds the ORDER BY created_at ASC LIMIT 1 part of a query over a list
of candidate rows: returns the earliest-created row, keeping the first of
equally old rows. -/
def oldestFirst : List Job → Option Job
  | [] => none
  | j :: rest =>
    match oldestFirst rest with
    | none => some j
    | some k => if j.created_at ≤ k.created_at then some j else some k

/-- Embeds AsyncDatabase.get_next_queued_job (src/backend/database.py
lines 103-121): SELECT * FROM jobs WHERE status = QUEUED AND
priority = $1 ORDER BY created_at ASC LIMIT 1.  The capability argument
is received but never used by the query, exactly as in the source. -/
def get_next_queued_job (jobs : List Job) (priority : Int)
    (_capability : List String) : Option Job :=
  oldestFirst (jobs.filter
    (fun j => decide (j.status = JobStatus.QUEUED ∧ j.priority = priority)))

/-- Embeds Scheduler.select_next_job (src/backend/scheduler.py lines
80-87): for priority in [3, 2, 1, 0] return the first hit of
get_next_queued_job, passing the worker capabilities through. -/
def select_next_job (jobs : List Job) (w : WorkerProxy) : Option Job :=
  match get_next_queued_job jobs 3 w.capabilities with
  | some job => some job
  | none =>
  match get_next_queued_job jobs 2 w.capabilities with
  | some job => some job
  | none =>
  match get_next_queued_job jobs 1 w.capabilities with
  | some job => some job
  | none => get_next_queued_job jobs 0 w.capabilities

/-- JobUpdate written by Scheduler.dispatch_job step 1 (lines 93-99):
status RUNNING, started_at stamped, worker_id assigned. -/
def runningUpdate (wid : String) (now : Nat) : JobUpdate :=
  { status := some JobStatus.RUNNING
    started_at := some now
    worker_id := some wid }

/-- One selection followed by its RUNNING update, the two database
operations a single dispatch performs on the jobs table before the worker
RPC (Scheduler.start_dispatch_loop step 2 plus dispatch_job step 1). -/
def claimStep (jobs : List Job) (w : WorkerProxy) (now : Nat) :
    Option (Job × List Job) :=
  match select_next_job jobs w with
  | none => none
  | some job => some (job, update_job jobs job.id (runningUpdate w.id now))

/-- Ids of the jobs handed out by n rounds of the dispatch loop against
one worker, each round completing its RUNNING update before the next
selection. -/
def dispatchOrder : Nat → List Job → WorkerProxy → List Nat
  | 0, _, _ => []
  | n + 1, jobs, w =>
    match claimStep jobs w 0 with
    | none => []
    | some (job, jobs2) => job.id :: dispatchOrder n jobs2 w

/-- Example jobs of scenario 3 of the spec: A has priority 0 and creation
time 1, B priority 2 time 2, C priority 2 time 3. -/
def jobA : Job :=
  { id := 1, user_id := 1, capability := "image",
    status := JobStatus.QUEUED, priority := 0, cost_tokens := 100,
    created_at := 1 }

def jobB : Job :=
  { id := 2, user_id := 1, capability := "image",
    status := JobStatus.QUEUED, priority := 2, cost_tokens := 100,
    created_at := 2 }

def jobC : Job :=
  { id := 3, user_id := 1, capability := "image",
    status := JobStatus.QUEUED, priority := 2, cost_tokens := 100,
    created_at := 3 }

/-- Idle registered image worker. -/
def exampleWorker : WorkerProxy :=
  { id := "w1", base_url := "http://w1", capabilities := ["image"],
    status := "idle", loaded_models := [], last_heartbeat := 0 }

/-- Registered text worker of scenario 4 of the spec. -/
def workerTxt : WorkerProxy :=
  { id := "wtxt", base_url := "http://wtxt", capabilities := ["text"],
    status := "idle", loaded_models := [], last_heartbeat := 0 }

/-- Queued image job with no text job ahead of it. -/
def jobImgOnly : Job :=
  { id := 5, user_id := 1, capability := "image",
    status := JobStatus.QUEUED, priority := 0, cost_tokens := 100,
    created_at := 1 }

/-- Row of the usage_daily table. -/
structure UsageRow where
  user_id : Nat
  date : Nat
  tokens_used : Int
  jobs_completed : Nat
deriving DecidableEq, Repr

/-- Embeds AsyncDatabase.update_usage (src/backend/database.py lines
137-148): INSERT with ON CONFLICT (user_id, date) DO UPDATE additive
merge. -/
def update_usage (rows : List UsageRow) (uid d : Nat) (dt : Int)
    (dj : Nat) : List UsageRow :=
  if rows.any (fun r => decide (r.user_id = uid ∧ r.date = d)) then
    rows.map (fun r =>
      if r.user_id = uid ∧ r.date = d then
        { r with
          tokens_used := r.tokens_used + dt
          jobs_completed := r.jobs_completed + dj }
      else r)
  else
    rows ++ [{ user_id := uid, date := d, tokens_used := dt,
               jobs_completed := dj }]

/-- JobUpdate written by Scheduler.handle_job_failure (lines 157-162):
status FAILED, ended_at stamped, error recorded. -/
def failUpdate (code msg : String) (now : Nat) : JobUpdate :=
  { status := some JobStatus.FAILED
    ended_at := some now
    error := some { code := code, message := msg } }

/-- Embeds Scheduler.handle_job_failure (src/backend/scheduler.py lines
155-162): a single unconditional update_job call. -/
def handle_job_failure (jobs : List Job) (job : Job) (code msg : String)
    (now : Nat) : List Job :=
  update_job jobs job.id (failUpdate code msg now)

/-- One artifact entry of a worker response body. -/
structure WorkerArtifact where
  type : Option String
  path : Option String
  url : Option String
deriving DecidableEq, Repr

/-- Parsed 2xx worker response body (models.JobCompletionData declares
status as completed or failed). -/
structure WorkerResponse where
  status : String
  execution_time_seconds : Int
  artifacts : List WorkerArtifact
deriving DecidableEq, Repr

/-- Artifact rows created by the loop in Scheduler.handle_job_completion
step 1 (lines 125-135), ids assigned consecutively by the store. -/
def saveArtifacts (nextId : Nat) (jobId : Nat) :
    List WorkerArtifact → List ArtifactRow
  | [] => []
  | a :: rest =>
    create_artifact nextId
        { job_id := jobId, type := a.type.getD "image",
          path := a.path, url := a.url } ::
      saveArtifacts (nextId + 1) jobId rest

/-- Store state touched by the dispatcher: jobs, artifacts and usage_daily
rows. -/
structure SchedState where
  jobs : List Job
  artifacts : List ArtifactRow
  usage : List UsageRow
deriving DecidableEq, Repr

/-- Embeds Scheduler.handle_job_completion (src/backend/scheduler.py lines
119-153): save artifacts, set the job COMPLETED with ended_at, execution
time and artifact ids, then increment the usage counters of the job's
user.  The response status field is never read, exactly as in the
source. -/
def handle_job_completion (st : SchedState) (job : Job)
    (resp : WorkerResponse) (now today : Nat) : SchedState :=
  let newRows := saveArtifacts st.artifacts.length job.id resp.artifacts
  { jobs := update_job st.jobs job.id
      { status := some JobStatus.COMPLETED
        ended_at := some now
        execution_time_seconds := some resp.execution_time_seconds
        metadata := some (newRows.map (fun r => r.id)) }
    artifacts := st.artifacts ++ newRows
    usage := update_usage st.usage job.user_id today job.cost_tokens 1 }

/-- Embeds Scheduler.dispatch_job (src/backend/scheduler.py lines 89-117).
The rpc argument is the outcome of WorkerProxy.run_job: ok carries a
parsed 2xx body, error carries the exception message of a non-2xx
response, timeout, transport error or body-parse failure.  The worker is
marked busy, the job moved to RUNNING, the outcome handled, and the
finally block returns the worker to idle on every path. -/
def dispatch_job (st : SchedState) (w : WorkerProxy) (job : Job)
    (rpc : Except String WorkerResponse) (now today : Nat) :
    SchedState × WorkerProxy :=
  let w1 : WorkerProxy := { w with status := "busy" }
  let st1 : SchedState :=
    { st with jobs := update_job st.jobs job.id (runningUpdate w.id now) }
  let st2 :=
    match rpc with
    | Except.ok resp => handle_job_completion st1 job resp now today
    | Except.error msg =>
        { st1 with
          jobs := handle_job_failure st1.jobs job "DISPATCH_ERROR" msg now }
  (st2, { w1 with status := "idle" })

/-- Completed job used to exhibit that terminal rows are not protected. -/
def jobDone : Job :=
  { id := 7, user_id := 1, capability := "image",
    status := JobStatus.COMPLETED, priority := 0, cost_tokens := 100,
    created_at := 1, ended_at := some 10 }

/-- Queued job of a user with id 4 used in the dispatch examples. -/
def jobQ4 : Job :=
  { id := 9, user_id := 4, capability := "image",
    status := JobStatus.QUEUED, priority := 0, cost_tokens := 100,
    created_at := 1 }

/-- Store state holding only that job. -/
def st4 : SchedState := { jobs := [jobQ4], artifacts := [], usage := [] }

/-- Well-formed 2xx body whose status field says failed. -/
def respFailed : WorkerResponse :=
  { status := "failed", execution_time_seconds := 2, artifacts := [] }

/-- The job row of jobQ4 after a dispatch whose RPC failed with message
http 500: RUNNING fields stamped, then the FAILED fields. -/
def jobQ4Failed : Job :=
  { jobQ4 with
    status := JobStatus.FAILED
    started_at := some 5
    worker_id := some "w1"
    ended_at := some 5
    error := some { code := "DISPATCH_ERROR", message := "http 500" } }

/-- User row joined with its plan as returned by get_or_create_user:
id, plan daily_token_limit (whole tokens) and plan priority. -/
structure UserRow where
  id : Nat
  daily_token_limit : Int
  priority : Int
deriving DecidableEq, Repr

/-- Admission request body (backend.models.JobRequest). -/
structure JobRequest where
  frontend : String
  bot_id : Option String
  capability : String
  user_ref : String
  params : List (String × String)
deriving DecidableEq, Repr

/-- Admission response body (backend.models.JobResponse); cost_tokens in
hundredths. -/
structure JobResponse where
  job_id : Nat
  status : String
  estimated_time_seconds : Nat
  cost_tokens : Int
  queue_position : Nat
deriving DecidableEq, Repr

/-- Embeds AsyncDatabase.count_queued_jobs_before (src/backend/database.py
lines 90-101): COUNT of QUEUED rows with higher priority, or equal
priority and created strictly before the subquery row. -/
def count_queued_jobs_before (jobs : List Job) (jobId : Nat) (p : Int) :
    Nat :=
  (jobs.filter (fun j =>
    decide (j.status = JobStatus.QUEUED) &&
      (decide (p < j.priority) ||
        (decide (j.priority = p) &&
          match jobs.find? (fun k => decide (k.id = jobId)) with
          | some target => decide (j.created_at < target.created_at)
          | none => false)))).length

/-- Embeds estimate_job_time (src/backend/main.py lines 44-45). -/
def estimate_job_time (queue_position : Nat) : Nat :=
  (queue_position + 1) * 20

/-- Embeds the create_job handler (src/backend/main.py lines 47-102) after
user resolution: quota check against usage plus cost, HTTP 402 on
excess, else INSERT with status CREATED, the QUEUED update, queue
position and estimate.  The result carries the jobs table, the user's
usage_daily tokens_used (which the handler never writes), and either the
402 status code or the response body.  The plan limit is whole tokens, so
it is scaled by 100 to hundredths for the comparison. -/
def create_job_endpoint (jobs : List Job) (usage_tokens : Int)
    (user : UserRow) (req : JobRequest) (now newId : Nat) :
    List Job × Int × Except Nat JobResponse :=
  let cost := calculate_token_cost req.params
  if usage_tokens + cost > 100 * user.daily_token_limit then
    (jobs, usage_tokens, Except.error 402)
  else
    let newJob : Job :=
      { id := newId, user_id := user.id, capability := req.capability,
        status := JobStatus.CREATED, priority := user.priority,
        cost_tokens := cost, created_at := now }
    let jobs2 := update_job (jobs ++ [newJob]) newId
      { status := some JobStatus.QUEUED, queued_at := some now }
    let qpos := count_queued_jobs_before jobs2 newId user.priority
    (jobs2, usage_tokens,
      Except.ok
        { job_id := newId, status := "QUEUED",
          estimated_time_seconds := estimate_job_time qpos,
          cost_tokens := cost, queue_position := qpos })

/-- Free-plan user with the seeded 20-token daily limit. -/
def user4 : UserRow := { id := 4, daily_token_limit := 20, priority := 0 }

/-- Telegram image request of scenario 1 of the spec. -/
def reqImg : JobRequest :=
  { frontend := "telegram", bot_id := none, capability := "image",
    user_ref := "telegram:42", params := [("capability", "image")] }

/-- Embeds WorkerProxy dunder init (src/backend/scheduler.py lines 8-14):
a fresh record always starts with status idle, empty loaded_models and
last_heartbeat now. -/
def WorkerProxy.init (worker_id base_url : String)
    (capabilities : List String) (now : Nat) : WorkerProxy :=
  { id := worker_id, base_url := base_url, capabilities := capabilities,
    status := "idle", loaded_models := [], last_heartbeat := now }

/-- Python dict assignment on an association list: replace the entry of an
existing key in place, else append. -/
def dictSet (m : List (String × WorkerProxy)) (k : String)
    (v : WorkerProxy) : List (String × WorkerProxy) :=
  match m with
  | [] => [(k, v)]
  | e :: rest => if e.1 = k then (k, v) :: rest else e :: dictSet rest k v

/-- Embeds WorkerManager.register_worker (src/backend/scheduler.py lines
34-35): the dict slot is overwritten with a freshly constructed
WorkerProxy. -/
def register_worker (m : List (String × WorkerProxy))
    (worker_id url : String) (capabilities : List String) (now : Nat) :
    List (String × WorkerProxy) :=
  dictSet m worker_id (WorkerProxy.init worker_id url capabilities now)

/-- Python dict lookup on the association list. -/
def lookupWorker (m : List (String × WorkerProxy)) (wid : String) :
    Option WorkerProxy :=
  (m.find? (fun e => decide (e.1 = wid))).map (fun e => e.2)

/-- Busy worker record as it stands between dispatch and completion. -/
def busyW1 : WorkerProxy :=
  { id := "w1", base_url := "http://old", capabilities := ["image"],
    status := "busy", loaded_models := [], last_heartbeat := 3 }

/-- No row with the given id is QUEUED. -/
def notQueued (a : Nat) (jobs : List Job) : Prop :=
  ∀ j ∈ jobs, j.id = a → j.status ≠ JobStatus.QUEUED

/-- Serialized execution of the dispatch loop: each round's selection and
RUNNING update complete before the next worker's selection (one claimStep
per worker, in order). -/
def serializedClaims : List WorkerProxy → List Job → List (Option Job)
  | [], _ => []
  | w :: ws, jobs =>
    match claimStep jobs w 0 with
    | none => none :: serializedClaims ws jobs
    | some (job, jobs2) => some job :: serializedClaims ws jobs2

/-- Second idle image worker. -/
def worker2 : WorkerProxy :=
  { id := "w2", base_url := "http://w2", capabilities := ["image"],
    status := "idle", loaded_models := [], last_heartbeat := 0 }

/-- Result of one selection performed by a dispatch-loop iteration:
iteration index, worker the loop chose, and the job the query returned. -/
structure ClaimResult where
  idx : Nat
  worker : String
  job : Option Job
deriving DecidableEq, Repr

/-- Atomic database actions of concurrent dispatch iterations.  The code
runs the selection in the loop (start_dispatch_loop step 2) and the
QUEUED to RUNNING update in a separately spawned task (dispatch_job step
1, started with create_task), so other iterations may run between the
two. -/
inductive DispatchAction where
  | select (idx : Nat) (w : WorkerProxy)
  | markRunning (idx : Nat)
deriving DecidableEq, Repr

/-- Jobs table plus the selections the iterations have performed. -/
structure DispatchTrace where
  jobs : List Job
  results : List ClaimResult
deriving DecidableEq, Repr

/-- Effect of one atomic action: a select records the row the query
returns against the current table; a markRunning applies the RUNNING
update of the job its iteration selected. -/
def execAction (st : DispatchTrace) : DispatchAction → DispatchTrace
  | DispatchAction.select i w =>
    { st with
      results := st.results ++
        [{ idx := i, worker := w.id, job := select_next_job st.jobs w }] }
  | DispatchAction.markRunning i =>
    match st.results.find? (fun r => decide (r.idx = i)) with
    | none => st
    | some r =>
      match r.job with
      | none => st
      | some job =>
        { st with
          jobs := update_job st.jobs job.id (runningUpdate r.worker 0) }

/-- Run a schedule of atomic actions in order. -/
def execActions (st : DispatchTrace) : List DispatchAction → DispatchTrace
  | [] => st
  | a :: rest => execActions (execAction st a) rest

/-- A schedule respects per-iteration program order when every markRunning
is preceded by the selection of the same iteration. -/
def wellFormedFrom (seen : List Nat) : List DispatchAction → Bool
  | [] => true
  | DispatchAction.select i _ :: rest => wellFormedFrom (i :: seen) rest
  | DispatchAction.markRunning i :: rest =>
    seen.contains i && wellFormedFrom seen rest

/-- Schedule validity from an empty history. -/
def wellFormed (acts : List DispatchAction) : Bool :=
  wellFormedFrom [] acts

/-- Single queued job both loop iterations will fight over. -/
def raceJob : Job :=
  { id := 21, user_id := 1, capability := "image",
    status := JobStatus.QUEUED, priority := 0, cost_tokens := 100,
    created_at := 1 }

/-- Interleaving the code permits: both iterations run their selection
before either spawned task applies its RUNNING update (create_task defers
the update past the next loop iteration's query). -/
def raceSchedule : List DispatchAction :=
  [DispatchAction.select 1 exampleWorker,
   DispatchAction.select 2 worker2,
   DispatchAction.markRunning 1,
   DispatchAction.markRunning 2]

/-- Claim C10: every artifact row produced by create_artifact has format
equal to the string png, whatever the declared type and input fields. -/
theorem C10_artifact_format_png (nextId : Nat) (d : ArtifactInput) :
    (create_artifact nextId d).format = "png" := by
  rfl

/-- Claim C5 fails as stated: the cost of capability video is 0.5 (50
hundredths), not the 2.0 (200 hundredths) the baseline table promises. -/
theorem C5_video_cost_counterexample :
    calculate_token_cost [("capability", "video")] = 50 ∧
      ¬ ((50 : Int) = 200) := by
  constructor
  · rfl
  · decide

/-- Claim C5 amended: the admission cost is a deterministic function of the
capability entry of params alone, with image costing 1.0 (100 hundredths)
and every other capability (text, audio, video) costing 0.5 (50
hundredths). -/
theorem C5_cost_function :
    (∀ p q : Params, paramsGet p "capability" = paramsGet q "capability" →
        calculate_token_cost p = calculate_token_cost q) ∧
      calculate_token_cost [("capability", "image")] = 100 ∧
      calculate_token_cost [("capability", "text")] = 50 ∧
      calculate_token_cost [("capability", "audio")] = 50 ∧
      calculate_token_cost [("capability", "video")] = 50 := by
  refine ⟨?_, rfl, rfl, rfl, rfl⟩
  intro p q h
  unfold calculate_token_cost
  rw [h]

theorem C5_cost_function_witness :
    calculate_token_cost [("capability", "video"), ("steps", "30")] =
      calculate_token_cost [("capability", "video")] :=
  C5_cost_function.1 [("capability", "video"), ("steps", "30")]
    [("capability", "video")] rfl

theorem oldestFirst_mem {l : List Job} {j : Job} (h : oldestFirst l = some j) :
    j ∈ l := by
  induction l generalizing j with
  | nil => simp [oldestFirst] at h
  | cons a rest ih =>
    simp only [oldestFirst] at h
    cases hr : oldestFirst rest with
    | none => rw [hr] at h; simp at h; simp [h]
    | some k =>
      rw [hr] at h
      by_cases hle : a.created_at ≤ k.created_at
      · simp [hle] at h
        simp [h]
      · simp [hle] at h
        subst h
        exact List.mem_cons_of_mem a (ih hr)

theorem oldestFirst_eq_none {l : List Job} (h : oldestFirst l = none) :
    l = [] := by
  cases l with
  | nil => rfl
  | cons a rest =>
    simp only [oldestFirst] at h
    cases hr : oldestFirst rest with
    | none => rw [hr] at h; simp at h
    | some c =>
      rw [hr] at h
      by_cases hle : a.created_at ≤ c.created_at
      · simp [hle] at h
      · simp [hle] at h

theorem oldestFirst_min {l : List Job} {j : Job} (h : oldestFirst l = some j) :
    ∀ k ∈ l, j.created_at ≤ k.created_at := by
  induction l generalizing j with
  | nil => simp [oldestFirst] at h
  | cons a rest ih =>
    simp only [oldestFirst] at h
    intro k hk
    cases hr : oldestFirst rest with
    | none =>
      rw [hr] at h
      simp at h
      have hrest : rest = [] := oldestFirst_eq_none hr
      subst hrest
      simp at hk
      subst hk
      subst h
      exact le_refl _
    | some c =>
      rw [hr] at h
      by_cases hle : a.created_at ≤ c.created_at
      · simp [hle] at h
        subst h
        rcases List.mem_cons.mp hk with hk | hk
        · subst hk; exact le_refl _
        · exact le_trans hle (ih hr k hk)
      · simp [hle] at h
        subst h
        rcases List.mem_cons.mp hk with hk | hk
        · subst hk; exact le_of_lt (lt_of_not_le hle)
        · exact ih hr k hk

theorem gnq_props {jobs : List Job} {p : Int} {caps : List String} {j : Job}
    (h : get_next_queued_job jobs p caps = some j) :
    j ∈ jobs ∧ j.status = JobStatus.QUEUED ∧ j.priority = p ∧
      ∀ k ∈ jobs, k.status = JobStatus.QUEUED → k.priority = p →
        j.created_at ≤ k.created_at := by
  unfold get_next_queued_job at h
  have hmem := oldestFirst_mem h
  have hmin := oldestFirst_min h
  simp only [List.mem_filter, decide_eq_true_eq] at hmem
  obtain ⟨hj, hst, hpr⟩ := hmem
  refine ⟨hj, hst, hpr, ?_⟩
  intro k hk hkst hkp
  refine hmin k ?_
  simp only [List.mem_filter, decide_eq_true_eq]
  exact ⟨hk, hkst, hkp⟩

theorem gnq_none {jobs : List Job} {p : Int} {caps : List String}
    (h : get_next_queued_job jobs p caps = none) :
    ∀ k ∈ jobs, k.status = JobStatus.QUEUED → k.priority ≠ p := by
  unfold get_next_queued_job at h
  have hnil := oldestFirst_eq_none h
  intro k hk hst hp
  have hkmem : k ∈ jobs.filter
      (fun j => decide (j.status = JobStatus.QUEUED ∧ j.priority = p)) := by
    simp only [List.mem_filter, decide_eq_true_eq]
    exact ⟨hk, hst, hp⟩
  rw [hnil] at hkmem
  exact absurd hkmem (List.not_mem_nil k)

/-- Claim C7: a selected job has the highest priority among QUEUED jobs
whose priority lies in the scanned tiers 0..3, and the oldest created_at
within that priority; on the concrete scenario with jobs A, B, C the
dispatch order is B, C, A (ids 2, 3, 1). -/
theorem C7_priority_fifo :
    (∀ (jobs : List Job) (w : WorkerProxy) (j : Job),
        select_next_job jobs w = some j →
          j ∈ jobs ∧ j.status = JobStatus.QUEUED ∧
            ∀ k ∈ jobs, k.status = JobStatus.QUEUED →
              0 ≤ k.priority → k.priority ≤ 3 →
                k.priority ≤ j.priority ∧
                  (k.priority = j.priority → j.created_at ≤ k.created_at)) ∧
      dispatchOrder 3 [jobA, jobB, jobC] exampleWorker = [2, 3, 1] := by
  constructor
  · intro jobs w j hsel
    unfold select_next_job at hsel
    cases h3 : get_next_queued_job jobs 3 w.capabilities with
    | some j3 =>
      simp only [h3] at hsel
      obtain rfl : j3 = j := Option.some.inj hsel
      obtain ⟨hj, hst, hpr, hmin⟩ := gnq_props h3
      refine ⟨hj, hst, ?_⟩
      intro k hk hkst _ hk3
      refine ⟨by rw [hpr]; exact hk3, ?_⟩
      intro he
      exact hmin k hk hkst (by rw [he, hpr])
    | none =>
    simp only [h3] at hsel
    have hno3 := gnq_none h3
    cases h2 : get_next_queued_job jobs 2 w.capabilities with
    | some j2 =>
      simp only [h2] at hsel
      obtain rfl : j2 = j := Option.some.inj hsel
      obtain ⟨hj, hst, hpr, hmin⟩ := gnq_props h2
      refine ⟨hj, hst, ?_⟩
      intro k hk hkst hk0 hk3
      have hkne3 := hno3 k hk hkst
      refine ⟨by rw [hpr]; omega, ?_⟩
      intro he
      exact hmin k hk hkst (by rw [he, hpr])
    | none =>
    simp only [h2] at hsel
    have hno2 := gnq_none h2
    cases h1 : get_next_queued_job jobs 1 w.capabilities with
    | some j1 =>
      simp only [h1] at hsel
      obtain rfl : j1 = j := Option.some.inj hsel
      obtain ⟨hj, hst, hpr, hmin⟩ := gnq_props h1
      refine ⟨hj, hst, ?_⟩
      intro k hk hkst hk0 hk3
      have hkne3 := hno3 k hk hkst
      have hkne2 := hno2 k hk hkst
      refine ⟨by rw [hpr]; omega, ?_⟩
      intro he
      exact hmin k hk hkst (by rw [he, hpr])
    | none =>
      simp only [h1] at hsel
      have hno1 := gnq_none h1
      obtain ⟨hj, hst, hpr, hmin⟩ := gnq_props hsel
      refine ⟨hj, hst, ?_⟩
      intro k hk hkst hk0 hk3
      have hkne3 := hno3 k hk hkst
      have hkne2 := hno2 k hk hkst
      have hkne1 := hno1 k hk hkst
      refine ⟨by rw [hpr]; omega, ?_⟩
      intro he
      exact hmin k hk hkst (by rw [he, hpr])
  · decide

theorem C7_priority_fifo_witness :
    jobA.priority ≤ jobB.priority ∧ jobB.created_at ≤ jobC.created_at := by
  have h := C7_priority_fifo.1 [jobA, jobB, jobC] exampleWorker jobB
    (by decide)
  refine ⟨?_, ?_⟩
  · exact (h.2.2 jobA (by decide) (by decide) (by decide) (by decide)).1
  · exact (h.2.2 jobC (by decide) (by decide) (by decide) (by decide)).2
      (by decide)

/-- Claim C1 is violated by the code: get_next_queued_job never filters on
capability, so the text-only worker is handed the queued image job and the
dispatch moves that job to RUNNING with the text worker assigned. -/
theorem C1_capability_ignored :
    select_next_job [jobImgOnly] workerTxt = some jobImgOnly ∧
      jobImgOnly.capability = "image" ∧
      workerTxt.capabilities = ["text"] ∧
      jobImgOnly.capability ∉ workerTxt.capabilities ∧
      claimStep [jobImgOnly] workerTxt 7 =
        some (jobImgOnly,
          [{ jobImgOnly with
              status := JobStatus.RUNNING
              started_at := some 7
              worker_id := some "wtxt" }]) := by
  decide

theorem update_job_mem {jobs : List Job} {jid : Nat} {u : JobUpdate}
    {j : Job} (h : j ∈ update_job jobs jid u) :
    ∃ k ∈ jobs, j = if k.id = jid then applyUpdate k u else k := by
  unfold update_job at h
  obtain ⟨k, hk, hkeq⟩ := List.mem_map.mp h
  exact ⟨k, hk, hkeq.symm⟩

/-- Claim C3 fails as stated: update_job has no compare-and-set, so
handle_job_failure rewrites a COMPLETED (terminal) job to FAILED and
changes its ended_at and error fields. -/
theorem C3_terminal_overwritten_counterexample :
    jobDone.status = JobStatus.COMPLETED ∧
      handle_job_failure [jobDone] jobDone "DISPATCH_ERROR" "boom" 11 =
        [{ jobDone with
            status := JobStatus.FAILED
            ended_at := some 11
            error := some { code := "DISPATCH_ERROR", message := "boom" } }] := by
  decide

/-- Claim C3 amended: update_job applies its field updates
unconditionally, with no from_status compare-and-set and no returned
flag; in particular failure handling sets status FAILED, ended_at and
error on the matching row whatever its current status, terminal ones
included. -/
theorem C3_update_unconditional :
    (∀ (jobs : List Job) (j : Job) (u : JobUpdate), j ∈ jobs →
        applyUpdate j u ∈ update_job jobs j.id u) ∧
      ∀ (jobs : List Job) (j : Job) (code msg : String) (now : Nat),
        j ∈ jobs →
          (applyUpdate j (failUpdate code msg now)).status =
              JobStatus.FAILED ∧
            (applyUpdate j (failUpdate code msg now)).error =
              some { code := code, message := msg } ∧
            (applyUpdate j (failUpdate code msg now)).ended_at = some now ∧
            applyUpdate j (failUpdate code msg now) ∈
              handle_job_failure jobs j code msg now := by
  have hbase : ∀ (jobs : List Job) (j : Job) (u : JobUpdate), j ∈ jobs →
      applyUpdate j u ∈ update_job jobs j.id u := by
    intro jobs j u hj
    unfold update_job
    have hm := List.mem_map_of_mem
      (fun k => if k.id = j.id then applyUpdate k u else k) hj
    simpa using hm
  refine ⟨hbase, ?_⟩
  intro jobs j code msg now hj
  exact ⟨rfl, rfl, rfl, hbase jobs j (failUpdate code msg now) hj⟩

theorem C3_update_unconditional_witness :
    (applyUpdate jobDone (failUpdate "X" "m" 12)).status =
      JobStatus.FAILED :=
  (C3_update_unconditional.2 [jobDone] jobDone "X" "m" 12
    (List.mem_singleton.mpr rfl)).1

/-- Claim C4 is violated by the code: dispatch_job routes every 2xx body
through handle_job_completion without reading the status field, so a body
with status failed marks the job COMPLETED with no error recorded and
increments the user's usage counters. -/
theorem C4_worker_failed_marked_completed :
    respFailed.status = "failed" ∧
      (dispatch_job st4 exampleWorker jobQ4 (Except.ok respFailed) 5 6).1.jobs.map
          Job.status = [JobStatus.COMPLETED] ∧
      (dispatch_job st4 exampleWorker jobQ4 (Except.ok respFailed) 5 6).1.jobs.map
          Job.error = [none] ∧
      (dispatch_job st4 exampleWorker jobQ4 (Except.ok respFailed) 5 6).1.usage =
        [{ user_id := 4, date := 6, tokens_used := 100,
           jobs_completed := 1 }] ∧
      st4.usage = [] := by
  decide

/-- Claim C9: when the worker RPC errors (non-2xx, timeout, parse or
transport failure), the job row is set to FAILED with error code
DISPATCH_ERROR and ended_at stamped, the usage and artifact tables are
untouched, and the worker status is idle after dispatch_job on every rpc
outcome. -/
theorem C9_dispatch_error_handling :
    ∀ (st : SchedState) (w : WorkerProxy) (job : Job) (msg : String)
      (now today : Nat),
      (∀ j ∈ (dispatch_job st w job (Except.error msg) now today).1.jobs,
          j.id = job.id →
            j.status = JobStatus.FAILED ∧
              j.error = some { code := "DISPATCH_ERROR", message := msg } ∧
              j.ended_at = some now) ∧
        (dispatch_job st w job (Except.error msg) now today).1.usage =
          st.usage ∧
        (dispatch_job st w job (Except.error msg) now today).1.artifacts =
          st.artifacts ∧
        ∀ rpc : Except String WorkerResponse,
          (dispatch_job st w job rpc now today).2.status = "idle" := by
  intro st w job msg now today
  refine ⟨?_, rfl, rfl, ?_⟩
  · intro j hj hid
    simp only [dispatch_job, handle_job_failure] at hj
    obtain ⟨k, hk, hkeq⟩ := update_job_mem hj
    by_cases hkid : k.id = job.id
    · rw [if_pos hkid] at hkeq
      subst hkeq
      exact ⟨rfl, rfl, rfl⟩
    · rw [if_neg hkid] at hkeq
      subst hkeq
      exact absurd hid hkid
  · intro rpc
    cases rpc with
    | ok resp => rfl
    | error e => rfl

theorem C9_dispatch_error_handling_witness :
    jobQ4Failed.status = JobStatus.FAILED ∧
      jobQ4Failed.error =
        some { code := "DISPATCH_ERROR", message := "http 500" } ∧
      jobQ4Failed.ended_at = some 5 :=
  (C9_dispatch_error_handling st4 exampleWorker jobQ4 "http 500" 5 6).1
    jobQ4Failed (by decide) (by decide)

/-- Claim C6: admission fails with HTTP 402 leaving the jobs table and the
usage counter unchanged when usage plus cost exceeds the plan limit, and
creates exactly one job row (without touching usage) otherwise. -/
theorem C6_quota_gate :
    ∀ (jobs : List Job) (usage_tokens : Int) (user : UserRow)
      (req : JobRequest) (now newId : Nat),
      (usage_tokens + calculate_token_cost req.params >
          100 * user.daily_token_limit →
        create_job_endpoint jobs usage_tokens user req now newId =
          (jobs, usage_tokens, Except.error 402)) ∧
      (usage_tokens + calculate_token_cost req.params ≤
          100 * user.daily_token_limit →
        (create_job_endpoint jobs usage_tokens user req now newId).1.length =
            jobs.length + 1 ∧
          (create_job_endpoint jobs usage_tokens user req now newId).2.1 =
            usage_tokens ∧
          ∃ resp,
            (create_job_endpoint jobs usage_tokens user req now newId).2.2 =
              Except.ok resp) := by
  intro jobs usage_tokens user req now newId
  constructor
  · intro h
    simp only [create_job_endpoint]
    rw [if_pos h]
  · intro h
    have hn : ¬ (usage_tokens + calculate_token_cost req.params >
        100 * user.daily_token_limit) := not_lt.mpr h
    simp only [create_job_endpoint]
    rw [if_neg hn]
    refine ⟨?_, rfl, ?_⟩
    · simp [update_job]
    · exact ⟨_, rfl⟩

theorem C6_quota_gate_witness :
    create_job_endpoint [] 1950 user4 reqImg 0 1 =
        ([], 1950, Except.error 402) ∧
      (create_job_endpoint [] 0 user4 reqImg 0 1).1.length = 1 :=
  ⟨(C6_quota_gate [] 1950 user4 reqImg 0 1).1 (by decide),
   ((C6_quota_gate [] 0 user4 reqImg 0 1).2 (by decide)).1⟩

theorem lookupWorker_dictSet (m : List (String × WorkerProxy))
    (k : String) (v : WorkerProxy) :
    lookupWorker (dictSet m k v) k = some v := by
  induction m with
  | nil => simp [dictSet, lookupWorker, List.find?]
  | cons e rest ih =>
    by_cases he : e.1 = k
    · simp [dictSet, lookupWorker, he, List.find?]
    · simp only [dictSet, if_neg he]
      simp only [lookupWorker, List.find?] at ih ⊢
      rw [show (decide (e.1 = k)) = false from decide_eq_false he]
      exact ih

/-- Claim C8 fails as stated: re-registering a worker whose record is busy
resets its status to idle instead of preserving it. -/
theorem C8_busy_status_counterexample :
    busyW1.status = "busy" ∧
      lookupWorker
          (register_worker [("w1", busyW1)] "w1" "http://old" ["image"] 9)
          "w1" =
        some { id := "w1", base_url := "http://old",
               capabilities := ["image"], status := "idle",
               loaded_models := [], last_heartbeat := 9 } := by
  decide

/-- Claim C8 amended: heartbeat registration is a plain replacement: the
stored record is always a freshly built WorkerProxy with last_heartbeat
reset to now and status idle (loaded_models cleared), whether or not a
record for the id existed, so a busy worker's status is not preserved. -/
theorem C8_register_replaces :
    ∀ (m : List (String × WorkerProxy)) (wid url : String)
      (caps : List String) (now : Nat),
      lookupWorker (register_worker m wid url caps now) wid =
          some (WorkerProxy.init wid url caps now) ∧
        (WorkerProxy.init wid url caps now).status = "idle" ∧
        (WorkerProxy.init wid url caps now).last_heartbeat = now := by
  intro m wid url caps now
  exact ⟨lookupWorker_dictSet m wid (WorkerProxy.init wid url caps now),
    rfl, rfl⟩

theorem select_props {jobs : List Job} {w : WorkerProxy} {j : Job}
    (h : select_next_job jobs w = some j) :
    j ∈ jobs ∧ j.status = JobStatus.QUEUED := by
  unfold select_next_job at h
  cases h3 : get_next_queued_job jobs 3 w.capabilities with
  | some j3 =>
    simp only [h3] at h
    obtain rfl : j3 = j := Option.some.inj h
    obtain ⟨hj, hst, -, -⟩ := gnq_props h3
    exact ⟨hj, hst⟩
  | none =>
  simp only [h3] at h
  cases h2 : get_next_queued_job jobs 2 w.capabilities with
  | some j2 =>
    simp only [h2] at h
    obtain rfl : j2 = j := Option.some.inj h
    obtain ⟨hj, hst, -, -⟩ := gnq_props h2
    exact ⟨hj, hst⟩
  | none =>
  simp only [h2] at h
  cases h1 : get_next_queued_job jobs 1 w.capabilities with
  | some j1 =>
    simp only [h1] at h
    obtain rfl : j1 = j := Option.some.inj h
    obtain ⟨hj, hst, -, -⟩ := gnq_props h1
    exact ⟨hj, hst⟩
  | none =>
    simp only [h1] at h
    obtain ⟨hj, hst, -, -⟩ := gnq_props h
    exact ⟨hj, hst⟩

theorem notQueued_after_claim {jobs : List Job} {w : WorkerProxy}
    {now : Nat} {job : Job} {jobs2 : List Job}
    (h : claimStep jobs w now = some (job, jobs2)) :
    notQueued job.id jobs2 := by
  unfold claimStep at h
  cases hs : select_next_job jobs w with
  | none => rw [hs] at h; exact absurd h (by simp)
  | some sel =>
    rw [hs] at h
    simp only [Option.some.injEq, Prod.mk.injEq] at h
    obtain ⟨rfl, rfl⟩ := h
    intro j hj hid
    obtain ⟨k, hk, hkeq⟩ := update_job_mem hj
    by_cases hkid : k.id = sel.id
    · rw [if_pos hkid] at hkeq
      subst hkeq
      intro hq
      exact absurd hq (by simp [applyUpdate, runningUpdate, setField])
    · rw [if_neg hkid] at hkeq
      subst hkeq
      exact absurd hid hkid

theorem notQueued_preserved_by_claim {a : Nat} {jobs : List Job}
    {w : WorkerProxy} {now : Nat} {job : Job} {jobs2 : List Job}
    (hP : notQueued a jobs) (h : claimStep jobs w now = some (job, jobs2)) :
    notQueued a jobs2 := by
  unfold claimStep at h
  cases hs : select_next_job jobs w with
  | none => rw [hs] at h; exact absurd h (by simp)
  | some sel =>
    rw [hs] at h
    simp only [Option.some.injEq, Prod.mk.injEq] at h
    obtain ⟨rfl, rfl⟩ := h
    intro j hj hid
    obtain ⟨k, hk, hkeq⟩ := update_job_mem hj
    by_cases hkid2 : k.id = sel.id
    · rw [if_pos hkid2] at hkeq
      subst hkeq
      intro hq
      exact absurd hq (by simp [applyUpdate, runningUpdate, setField])
    · rw [if_neg hkid2] at hkeq
      subst hkeq
      exact hP j hk hid

theorem serializedClaims_avoid :
    ∀ (ws : List WorkerProxy) (jobs : List Job) (a : Nat),
      notQueued a jobs →
        ∀ o ∈ serializedClaims ws jobs, ∀ y, o = some y → y.id ≠ a := by
  intro ws
  induction ws with
  | nil => intro jobs a hP o ho; simp [serializedClaims] at ho
  | cons w ws ih =>
    intro jobs a hP o ho y hoy
    simp only [serializedClaims] at ho
    cases hc : claimStep jobs w 0 with
    | none =>
      rw [hc] at ho
      rcases List.mem_cons.mp ho with ho | ho
      · subst ho; exact absurd hoy (by simp)
      · exact ih jobs a hP o ho y hoy
    | some pr =>
      obtain ⟨job, jobs2⟩ := pr
      rw [hc] at ho
      rcases List.mem_cons.mp ho with ho | ho
      · subst ho
        obtain rfl : job = y := Option.some.inj hoy
        intro hya
        have hsel : select_next_job jobs w = some job := by
          unfold claimStep at hc
          cases hs : select_next_job jobs w with
          | none => rw [hs] at hc; exact absurd hc (by simp)
          | some sel =>
            rw [hs] at hc
            simp only [Option.some.injEq, Prod.mk.injEq] at hc
            rw [hc.1]
        obtain ⟨hmem, hq⟩ := select_props hsel
        exact hP job hmem hya hq
      · exact ih jobs2 a (notQueued_preserved_by_claim hP hc) o ho y hoy

theorem serializedClaims_pairwise :
    ∀ (ws : List WorkerProxy) (jobs : List Job),
      List.Pairwise
        (fun a b => ∀ x y, a = some x → b = some y → x.id ≠ y.id)
        (serializedClaims ws jobs) := by
  intro ws
  induction ws with
  | nil => intro jobs; simp [serializedClaims]
  | cons w ws ih =>
    intro jobs
    simp only [serializedClaims]
    cases hc : claimStep jobs w 0 with
    | none =>
      refine List.Pairwise.cons ?_ (ih jobs)
      intro b hb x y hx hy
      exact absurd hx (by simp)
    | some pr =>
      obtain ⟨job, jobs2⟩ := pr
      refine List.Pairwise.cons ?_ (ih jobs2)
      intro b hb x y hx hy
      obtain rfl : job = x := Option.some.inj hx
      have hne := serializedClaims_avoid ws jobs2 job.id
        (notQueued_after_claim hc) b hb y hy
      exact Ne.symm hne

/-- Claim C2 amended, positive part: under serialized execution (each
dispatch's QUEUED to RUNNING update applied before the next selection) any
two non-null claim results are distinct jobs. -/
theorem C2_serialized_claims_distinct :
    ∀ (ws : List WorkerProxy) (jobs : List Job) (i k : Nat) (x y : Job),
      i < k →
      (serializedClaims ws jobs)[i]? = some (some x) →
      (serializedClaims ws jobs)[k]? = some (some y) →
      x.id ≠ y.id := by
  intro ws jobs i k x y hik hx hy
  have hp := serializedClaims_pairwise ws jobs
  rw [List.pairwise_iff_getElem] at hp
  obtain ⟨hi, hxi⟩ := List.getElem?_eq_some.mp hx
  obtain ⟨hk, hyk⟩ := List.getElem?_eq_some.mp hy
  exact hp i k hi hk hik x y hxi hyk

theorem C2_serialized_claims_distinct_witness :
    jobB.id ≠ jobA.id :=
  C2_serialized_claims_distinct [exampleWorker, worker2] [jobA, jobB] 0 1
    jobB jobA (by decide) (by decide) (by decide)

/-- Claim C2 fails as stated: a program-order-respecting interleaving of
two dispatch iterations hands the single queued job (id 21) to both
workers w1 and w2, so concurrent claims are not serializable and the
results are not pairwise distinct. -/
theorem C2_double_claim_counterexample :
    wellFormed raceSchedule = true ∧
      (execActions { jobs := [raceJob], results := [] }
            raceSchedule).results.map
          (fun r => (r.worker, r.job.map Job.id)) =
        [("w1", some 21), ("w2", some 21)] ∧
      exampleWorker.id ≠ worker2.id := by
  decide
